import Mathlib

/-!
Shallow embedding of `src/migrator.py` (YouTrack → Azure DevOps migration).

Pure helpers (`_set_field`, `_format_yt_timestamp`, description/comment
formatting) are translated as Lean functions.  The networked parts
(`migrate_issue`, `migrate_project`) are translated as functions over an
explicit environment (`Env`) that supplies the responses of the external
HTTP collaborators, returning the ordered trace of outgoing calls
(`List Event`) together with an `Except`-style result mirroring Python
exception propagation.
-/

namespace SecScan

/-- JSON-like values, as produced by `response.json()` and used for field
values in the Python source. -/
inductive Val where
  | str (s : String)
  | int (n : Int)
  | obj (fields : List (String × Val))
  | null

/-- A single-quote character, used to model Python `repr` of strings. -/
def sq : String := String.singleton (Char.ofNat 39)

mutual

/-- Model of Python `repr` on JSON-like values (dicts print as
`\x7b'k': v\x7d`, `None` prints as `None`). -/
def pyReprVal : Val → String
  | .str s => sq ++ s ++ sq
  | .int n => toString n
  | .null => "None"
  | .obj kvs => "\x7b" ++ pyReprFields kvs ++ "\x7d"

/-- Model of Python `repr` of the entries of a dict. -/
def pyReprFields : List (String × Val) → String
  | [] => ""
  | [kv] => sq ++ kv.1 ++ sq ++ ": " ++ pyReprVal kv.2
  | kv :: rest => sq ++ kv.1 ++ sq ++ ": " ++ pyReprVal kv.2 ++ ", " ++ pyReprFields rest

end

/-- Model of Python `str()` on JSON-like values. -/
def pyStrVal : Val → String
  | .str s => s
  | v => pyReprVal v

/-- `SetFieldOperation` dataclass from the source: one directive produced by
the caller-supplied custom-field handler. -/
structure SetFieldOperation where
  ado_field : String
  yt_field : Val
  set_after_creation : Bool

/-- One JSON-patch operation as built by `Migrator._set_field`. -/
structure PatchOp where
  op : String
  path : String
  fromVal : Option Val
  value : Val

/-- `Migrator._set_field`: builds the `add` patch operation for one field. -/
def _set_field (ado_field : String) (yt_field : Val) : PatchOp :=
  { op := "add", path := "/fields/" ++ ado_field, fromVal := none, value := yt_field }

/-- Civil date (year, month, day) from days since 1970-01-01, as used by
`datetime.utcfromtimestamp` (Gregorian calendar, proleptic). -/
def civilFromDays (z0 : Int) : Int × Nat × Nat :=
  let z : Int := z0 + 719468
  let era : Int := Int.fdiv z 146097
  let doe : Nat := (z - era * 146097).toNat
  let yoe : Nat := (doe - doe / 1460 + doe / 36524 - doe / 146096) / 365
  let doy : Nat := doe - (365 * yoe + yoe / 4 - yoe / 100)
  let mp : Nat := (5 * doy + 2) / 153
  let d : Nat := doy - (153 * mp + 2) / 5 + 1
  let m : Nat := if mp < 10 then mp + 3 else mp - 9
  let y : Int := (yoe : Int) + era * 400
  (if m ≤ 2 then y + 1 else y, m, d)

/-- Zero-pad a number to two digits. -/
def pad2 (n : Nat) : String :=
  if n < 10 then "0" ++ toString n else toString n

/-- Zero-pad a number to four digits. -/
def pad4 (n : Nat) : String :=
  if n < 10 then "000" ++ toString n
  else if n < 100 then "00" ++ toString n
  else if n < 1000 then "0" ++ toString n
  else toString n

/-- Model of `datetime.utcfromtimestamp(s).isoformat()` for an epoch-seconds
input with zero microseconds: a timezone-naive ISO-8601 string. -/
def isoformatUtc (s : Int) : String :=
  let days := Int.fdiv s 86400
  let sod : Nat := (s - days * 86400).toNat
  let ymd := civilFromDays days
  pad4 ymd.1.toNat ++ "-" ++ pad2 ymd.2.1 ++ "-" ++ pad2 ymd.2.2 ++ "T" ++
    pad2 (sod / 3600) ++ ":" ++ pad2 (sod % 3600 / 60) ++ ":" ++ pad2 (sod % 60)

/-- `Migrator._format_yt_timestamp`: epoch milliseconds → ISO string via
Python floor division `timestamp // 1000`. -/
def _format_yt_timestamp (timestamp : Int) : String :=
  isoformatUtc (Int.fdiv timestamp 1000)

/-- The newline character, target of the line-break substitutions. -/
def nlChar : Char := Char.ofNat 10

/-- Model of Python `s.replace(old, repl)` for a one-character `old`:
every occurrence of the character is replaced by `repl`. -/
def replaceChar (c : Char) (repl : String) (s : String) : String :=
  ⟨s.data.flatMap fun ch => if ch = c then repl.data else [ch]⟩

/-- An attachment record as projected from the YouTrack response
(`attachments(url,name,id)`); `url` is absent when the key is missing. -/
structure Attachment where
  name : String
  url : Option String

/-- A comment record as projected from the YouTrack response. -/
structure Comment where
  created : Int
  author : String
  text : String
  attachments : List Attachment

/-- The parsed YouTrack issue data used by `migrate_issue`. -/
structure YTData where
  summary : String
  created : Int
  reporter : String
  description : String
  customFields : List (String × Val)
  comments : List Comment
  attachments : List Attachment

/-- `Migrator._build_custom_field_dict`: name → value mapping of the
issue's custom fields. -/
def _build_custom_field_dict (yt : YTData) : List (String × Val) :=
  yt.customFields

/-- The caller-supplied custom-field handler (mapping policy). -/
def CustomFieldHandler : Type :=
  List (String × Val) → List SetFieldOperation

/-- Python truthiness test `not attachment_url` on an optional string:
true when the key is absent or the string is empty. -/
def pyFalsy : Option String → Bool
  | none => true
  | some s => s == ""

/-- Characterwise prefix test, used to model Python `str.startswith`. -/
def isPrefixChars : List Char → List Char → Bool
  | [], _ => true
  | _ :: _, [] => false
  | p :: ps, c :: cs => p == c && isPrefixChars ps cs

/-- Model of Python `s.startswith(p)`. -/
def pyStartsWith (s p : String) : Bool :=
  isPrefixChars p.data s.data

/-- Resolution of an attachment locator: relative URLs (not starting with
"http") are prefixed with the source base URL (migrator.py lines 179-180 /
204-205). -/
def resolveAttachmentUrl (yt_base u : String) : String :=
  if pyStartsWith u "http" then u else yt_base ++ u

/-- The field projection string of the YouTrack single-issue fetch. -/
def yt_fields : String :=
  "customFields(name,value(avatarUrl,buildLink,color(id),fullName,id," ++
  "isResolved,localizedName,login,minutes,name,presentation,text))," ++
  "created,reporter(login),summary,description," ++
  "comments(created,author(login),text,attachments(url,name,id))," ++
  "attachments(url,name,id)"

/-- The URL of the YouTrack single-issue fetch. -/
def issueFetchUrl (yt_base yt_id : String) : String :=
  yt_base ++ "/api/issues/" ++ yt_id ++ "?fields=" ++ yt_fields

/-- Provenance preamble of the migrated description (migrator.py
lines 122-126, before the line-break substitution). -/
def descriptionPreamble (yt_base yt_id reporter created : String) : String :=
  "[Migrated from <a href=\"" ++ yt_base ++ "/issue/" ++ yt_id ++
  "\">YouTrack</a>, originally reported by " ++ reporter ++ " on " ++ created ++ "]"

/-- The full `System.Description` value: preamble, blank-line separator and
body are assembled first, then `replace("\n", "<br />\n")` is applied to
the whole string (migrator.py line 127). -/
def buildDescription (yt_base yt_id : String) (yt : YTData) : String :=
  let created := _format_yt_timestamp yt.created
  let description :=
    descriptionPreamble yt_base yt_id yt.reporter created ++ "\n\n" ++ yt.description
  replaceChar nlChar "<br />\n" description

/-- Provenance preamble of a migrated comment (migrator.py lines 165-169). -/
def commentPreamble (yt_base yt_id author created : String) : String :=
  "[Migrated from <a href=\"" ++ yt_base ++ "/issue/" ++ yt_id ++
  "\">YouTrack</a>. Original comment by " ++ author ++ " on " ++ created ++ "]"

/-- The comment text after the line-break substitution (migrator.py
line 170), before attachment links are appended. -/
def initialCommentText (yt_base yt_id : String) (c : Comment) : String :=
  replaceChar nlChar "<br/>\n"
    (commentPreamble yt_base yt_id c.author (_format_yt_timestamp c.created) ++
      "\n\n" ++ c.text)

/-- An HTTP GET response for an attachment download. -/
structure DownloadResp where
  status_code : Nat
  content : String

/-- Environment supplying the responses of the external HTTP collaborators:
the parsed single-issue fetch (`none` models a JSON decode failure), the
attachment GET, the attachment upload POST (`none` models a decode failure,
otherwise the parsed JSON object), and the work-item creation POST. -/
structure Env where
  issueData : String → Option YTData
  download : String → DownloadResp
  uploadJson : String → String → Option (List (String × Val))
  createJson : List PatchOp → Option (List (String × Val))

/-- The relational payload of an issue-level attachment patch. -/
structure AttachmentRelation where
  name : String
  url : String

/-- One outgoing network call, in the order the source performs them. -/
inductive Event where
  | getIssue (url : String)
  | getDownload (url : String)
  | postUpload (name : String) (content : String)
  | postCreate (ops : List PatchOp)
  | patchOps (workItemId : Val) (ops : List PatchOp)
  | postComment (workItemId : Val) (text : String)
  | patchAttach (workItemId : Val) (rel : AttachmentRelation)
  | sleep (seconds : Nat)
  | getIssueList (project : String)

/-- Python exceptions that escape the migration routines. -/
inductive PyErr where
  | jsonDecodeError
  | httpError (status : Nat)
  | keyError (key : String)
  | runtimeError (msg : String)

/-- `Migrator._download_attachment`: GET the URL and `raise_for_status()`
(an HTTP error for any status ≥ 400), otherwise return the content. -/
def _download_attachment (env : Env) (url : String) :
    List Event × Except PyErr String :=
  let resp := env.download url
  if 400 ≤ resp.status_code then
    ([Event.getDownload url], .error (.httpError resp.status_code))
  else
    ([Event.getDownload url], .ok resp.content)

/-- `Migrator._upload_attachment`: POST the bytes, then `res.json()["url"]`
— a decode failure raises `JSONDecodeError`, a parsed response without the
"url" key raises `KeyError`. -/
def _upload_attachment (env : Env) (name content : String) :
    List Event × Except PyErr String :=
  match env.uploadJson name content with
  | none => ([Event.postUpload name content], .error .jsonDecodeError)
  | some res =>
    match res.lookup "url" with
    | none => ([Event.postUpload name content], .error (.keyError "url"))
    | some v => ([Event.postUpload name content], .ok (pyStrVal v))

/-- The attachment loop inside the comment loop (migrator.py lines
173-185): a missing or empty locator is logged and skipped; otherwise the
attachment is downloaded, uploaded, and a link is appended to the comment
text. Any raised exception propagates. -/
def processCommentAttachments (env : Env) (yt_base : String) :
    String → List Attachment → List Event × Except PyErr String
  | text, [] => ([], .ok text)
  | text, a :: rest =>
    if pyFalsy a.url then processCommentAttachments env yt_base text rest
    else
      let url := resolveAttachmentUrl yt_base (a.url.getD "")
      match _download_attachment env url with
      | (ev1, .error e) => (ev1, .error e)
      | (ev1, .ok content) =>
        match _upload_attachment env a.name content with
        | (ev2, .error e) => (ev1 ++ ev2, .error e)
        | (ev2, .ok uurl) =>
          match processCommentAttachments env yt_base
              (text ++ "<br/><a href=\"" ++ uurl ++ "\">" ++ a.name ++ "</a>") rest with
          | (ev3, r3) => (ev1 ++ ev2 ++ ev3, r3)

/-- Migration of one comment (migrator.py lines 162-195): build the text,
relocate comment-scoped attachments, then post the comment. -/
def migrateComment (env : Env) (yt_base yt_id : String) (wid : Val) (c : Comment) :
    List Event × Except PyErr Unit :=
  match processCommentAttachments env yt_base (initialCommentText yt_base yt_id c)
      c.attachments with
  | (ev, .error e) => (ev, .error e)
  | (ev, .ok t) => (ev ++ [Event.postComment wid t], .ok ())

/-- The comment loop of `migrate_issue`, in source order. -/
def migrateComments (env : Env) (yt_base yt_id : String) (wid : Val) :
    List Comment → List Event × Except PyErr Unit
  | [] => ([], .ok ())
  | c :: rest =>
    match migrateComment env yt_base yt_id wid c with
    | (ev, .error e) => (ev, .error e)
    | (ev, .ok _) =>
      match migrateComments env yt_base yt_id wid rest with
      | (ev2, r2) => (ev ++ ev2, r2)

/-- The issue-level attachment loop (migrator.py lines 198-228): a missing
or empty locator is skipped; otherwise the attachment is downloaded,
uploaded, and attached to the work item by a relational patch. -/
def migrateIssueAttachments (env : Env) (yt_base : String) (wid : Val) :
    List Attachment → List Event × Except PyErr Unit
  | [] => ([], .ok ())
  | a :: rest =>
    if pyFalsy a.url then migrateIssueAttachments env yt_base wid rest
    else
      let url := resolveAttachmentUrl yt_base (a.url.getD "")
      match _download_attachment env url with
      | (ev1, .error e) => (ev1, .error e)
      | (ev1, .ok content) =>
        match _upload_attachment env a.name content with
        | (ev2, .error e) => (ev1 ++ ev2, .error e)
        | (ev2, .ok uurl) =>
          match migrateIssueAttachments env yt_base wid rest with
          | (ev3, r3) =>
            (ev1 ++ ev2 ++ [Event.patchAttach wid ⟨a.name, uurl⟩] ++ ev3, r3)

/-- The custom-field loop of `migrate_issue` (lines 133-135): each handler
directive is appended to `delayed_ops` when `set_after_creation` holds and
to `create_ops` otherwise. -/
def partitionOps : List SetFieldOperation → List PatchOp × List PatchOp →
    List PatchOp × List PatchOp
  | [], acc => acc
  | o :: rest, (c, d) =>
    let op := _set_field o.ado_field o.yt_field
    if o.set_after_creation then partitionOps rest (c, d ++ [op])
    else partitionOps rest (c ++ [op], d)

/-- Lines 114-135 of `migrate_issue`: the creation payload (title,
description, pre-creation directives) and the deferred patch payload. -/
def buildOps (yt_base yt_id : String) (yt : YTData) (handler : CustomFieldHandler) :
    List PatchOp × List PatchOp :=
  let titleOp := _set_field "System.Title" (.str yt.summary)
  let descOp := _set_field "System.Description" (.str (buildDescription yt_base yt_id yt))
  partitionOps (handler (_build_custom_field_dict yt)) ([titleOp, descOp], [])

/-- `Migrator.migrate_issue`: fetch, build payloads, create the work item
(fatal `RuntimeError` when the response has no "id"), patch deferred
operations, migrate comments, migrate issue-level attachments. Returns the
ordered trace of outgoing calls and the Python exception, if one escapes. -/
def migrate_issue (env : Env) (yt_base yt_id : String) (handler : CustomFieldHandler) :
    List Event × Except PyErr Unit :=
  let fetchEv := Event.getIssue (issueFetchUrl yt_base yt_id)
  match env.issueData yt_id with
  | none => ([fetchEv], .error .jsonDecodeError)
  | some yt =>
    let ops := buildOps yt_base yt_id yt handler
    match env.createJson ops.1 with
    | none => ([fetchEv, Event.postCreate ops.1], .error .jsonDecodeError)
    | some res =>
      match res.lookup "id" with
      | none =>
        ([fetchEv, Event.postCreate ops.1],
         .error (.runtimeError
           ("migration of " ++ yt_id ++ " failed: " ++ pyReprVal (.obj res))))
      | some wid =>
        match migrateComments env yt_base yt_id wid yt.comments with
        | (cev, .error e) =>
          ([fetchEv, Event.postCreate ops.1, Event.patchOps wid ops.2] ++ cev, .error e)
        | (cev, .ok _) =>
          match migrateIssueAttachments env yt_base wid yt.attachments with
          | (aev, ares) =>
            ([fetchEv, Event.postCreate ops.1, Event.patchOps wid ops.2] ++ cev ++ aev,
             ares)

/-- Environment of `migrate_project`: the listing response and, for each
attempt of `migrate_issue` (globally counted), the environment the attempt
sees. -/
structure ProjEnv where
  listStatus : Nat
  listText : String
  listIssues : List String
  attemptEnv : Nat → Env

/-- The `while True` retry loop of `migrate_project` (lines 254-260):
`migrate_issue` is retried after a 3-second sleep for as long as it raises
`JSONDecodeError`; any other exception propagates. The loop is unbounded in
the source; `fuel` bounds the model, `none` meaning the loop was still
running after `fuel` attempts. Returns the trace, the next global attempt
index, and the outcome. -/
def retryMigrate (penv : ProjEnv) (yt_base yt_id : String)
    (handler : CustomFieldHandler) (attempt : Nat) :
    Nat → List Event × Nat × Option (Except PyErr Unit)
  | 0 => ([], attempt, none)
  | fuel + 1 =>
    match migrate_issue (penv.attemptEnv attempt) yt_base yt_id handler with
    | (ev, .ok _) => (ev, attempt + 1, some (.ok ()))
    | (ev, .error .jsonDecodeError) =>
      match retryMigrate penv yt_base yt_id handler (attempt + 1) fuel with
      | (ev2, a2, r2) => (ev ++ Event.sleep 3 :: ev2, a2, r2)
    | (ev, .error e) => (ev, attempt + 1, some (.error e))

/-- The per-issue loop of `migrate_project` (lines 251-261): each issue is
fully migrated (with retries) before the next one starts. -/
def migrateIssuesLoop (penv : ProjEnv) (yt_base : String)
    (handler : CustomFieldHandler) (fuel : Nat) :
    Nat → List String → List Event × Option (Except PyErr Unit)
  | _, [] => ([], some (.ok ()))
  | attempt, yt_id :: rest =>
    match retryMigrate penv yt_base yt_id handler attempt fuel with
    | (ev, _, none) => (ev, none)
    | (ev, _, some (.error e)) => (ev, some (.error e))
    | (ev, a2, some (.ok _)) =>
      match migrateIssuesLoop penv yt_base handler fuel a2 rest with
      | (ev2, r2) => (ev ++ ev2, r2)

/-- `Migrator.migrate_project`: list the project's issues (fatal
`RuntimeError` on a non-200 status) and migrate each sequentially. -/
def migrate_project (penv : ProjEnv) (yt_base yt_project : String)
    (handler : CustomFieldHandler) (fuel : Nat) :
    List Event × Option (Except PyErr Unit) :=
  let listEv := Event.getIssueList yt_project
  if penv.listStatus ≠ 200 then
    ([listEv], some (.error (.runtimeError ("Failed to fetch issues: " ++ penv.listText))))
  else
    match migrateIssuesLoop penv yt_base handler fuel 0 penv.listIssues with
    | (ev, r) => (listEv :: ev, r)

/-- The final text of a migrated comment: the initial text extended by one
link per successfully relocated comment-scoped attachment. -/
def commentFinalText (env : Env) (yt_base yt_id : String) (c : Comment) : String :=
  match processCommentAttachments env yt_base (initialCommentText yt_base yt_id c)
      c.attachments with
  | (_, .ok t) => t
  | (_, .error _) => ""

/-- The destination URL an issue-level attachment is uploaded to, as
observed in its relational patch. -/
def attachUploadedUrl (env : Env) (yt_base : String) (a : Attachment) : String :=
  match _download_attachment env (resolveAttachmentUrl yt_base (a.url.getD "")) with
  | (_, .error _) => ""
  | (_, .ok content) =>
    match _upload_attachment env a.name content with
    | (_, .error _) => ""
    | (_, .ok uurl) => uurl

/-- Recognizes a comment-post call. -/
def isPostComment : Event → Bool
  | .postComment _ _ => true
  | _ => false

/-- Recognizes an issue-level attachment relational patch. -/
def isPatchAttach : Event → Bool
  | .patchAttach _ _ => true
  | _ => false

/-- Recognizes a single-issue source fetch. -/
def isGetIssue : Event → Bool
  | .getIssue _ => true
  | _ => false

/-- Recognizes a backoff sleep. -/
def isSleep : Event → Bool
  | .sleep _ => true
  | _ => false

/-- Recognizes an attachment upload call. -/
def isPostUpload : Event → Bool
  | .postUpload _ _ => true
  | _ => false

/-- Recognizes an attachment download call. -/
def isGetDownload : Event → Bool
  | .getDownload _ => true
  | _ => false

/-- Recognizes any PATCH call against the destination (deferred field
operations or attachment relations). -/
def isPatchCall : Event → Bool
  | .patchOps _ _ => true
  | .patchAttach _ _ => true
  | _ => false

/-- Recognizes the work-item creation call. -/
def isPostCreate : Event → Bool
  | .postCreate _ => true
  | _ => false

/-- The DEMO-1 issue of the spec's end-to-end scenario: summary
"Fix crash", one custom field, zero comments, zero attachments. -/
def demoIssue : YTData :=
  { summary := "Fix crash"
    created := 1700000000000
    reporter := "alice"
    description := "Steps:\nopen\ncrash"
    customFields := [("Priority", .obj [("name", .str "Critical")])]
    comments := []
    attachments := [] }

/-- The scenario's mapping policy: Critical → priority 2, pre-creation. -/
def demoHandler : CustomFieldHandler := fun fields =>
  match fields.lookup "Priority" with
  | some (.obj kvs) =>
    match kvs.lookup "name" with
    | some (.str "Critical") =>
      [⟨"Microsoft.VSTS.Common.Priority", .int 2, false⟩]
    | _ => [⟨"Microsoft.VSTS.Common.Priority", .int 4, false⟩]
  | _ => [⟨"Microsoft.VSTS.Common.Priority", .int 4, false⟩]

/-- A healthy environment serving DEMO-1: every call succeeds and the
creation response carries id 1. -/
def demoEnv : Env :=
  { issueData := fun i => if i = "DEMO-1" then some demoIssue else none
    download := fun _ => ⟨200, "bytes"⟩
    uploadJson := fun _ _ => some [("url", .str "https://dest/att/1")]
    createJson := fun _ => some [("id", .int 1)] }

/-- A policy yielding one pre-creation and one post-creation directive. -/
def mixedHandler : CustomFieldHandler := fun _ =>
  [⟨"PreField", .int 1, false⟩, ⟨"PostField", .int 2, true⟩]

/-- An environment whose creation response carries no "id" field. -/
def noIdEnv : Env :=
  { issueData := fun _ => some demoIssue
    download := fun _ => ⟨200, ""⟩
    uploadJson := fun _ _ => some [("url", .str "u")]
    createJson := fun _ => some [("error", .str "denied")] }

/-- An issue with two attachments, served by an environment whose download
endpoint answers 404. -/
def attachFailIssue : YTData :=
  { summary := "s", created := 1700000000000, reporter := "bob",
    description := "d", customFields := [],
    comments := [],
    attachments := [⟨"a.png", some "/files/a.png"⟩, ⟨"b.png", some "/files/b.png"⟩] }

/-- The environment serving `attachFailIssue` with failing downloads. -/
def attachFailEnv : Env :=
  { issueData := fun _ => some attachFailIssue
    download := fun _ => ⟨404, ""⟩
    uploadJson := fun _ _ => some [("url", .str "https://dest/att/9")]
    createJson := fun _ => some [("id", .int 7)] }

/-- An environment whose creation response is not decodable as JSON. -/
def decodeFailEnv : Env :=
  { issueData := fun _ => some demoIssue
    download := fun _ => ⟨200, ""⟩
    uploadJson := fun _ _ => some [("url", .str "u")]
    createJson := fun _ => none }

/-- A project environment whose first `migrate_issue` attempt hits a decode
failure and whose later attempts succeed. -/
def retryProjEnv : ProjEnv :=
  { listStatus := 200
    listText := ""
    listIssues := ["DEMO-1"]
    attemptEnv := fun k => if k = 0 then decodeFailEnv else demoEnv }

/-- An issue with two comments (one carrying an attachment) and two
issue-level attachments, for the ordering scenario. -/
def orderingIssue : YTData :=
  { summary := "Order", created := 1700000000000, reporter := "carol",
    description := "body", customFields := [],
    comments :=
      [⟨100, "u1", "first", [⟨"c.png", some "/files/c.png"⟩]⟩,
       ⟨200, "u2", "second", []⟩],
    attachments := [⟨"a1.png", some "/files/a1.png"⟩, ⟨"a2.png", some "/files/a2.png"⟩] }

/-- A healthy environment serving `orderingIssue`. -/
def orderingEnv : Env :=
  { issueData := fun _ => some orderingIssue
    download := fun _ => ⟨200, "bytes"⟩
    uploadJson := fun name _ => some [("url", .str ("https://dest/att/" ++ name))]
    createJson := fun _ => some [("id", .int 3)] }

/-- Modelled from the spec's words, for comparison with the source's
`buildDescription`: the line-break substitution applied to the body only,
with the preamble and the blank-line separator left untouched. -/
def buildDescription_bodyOnlySpec (yt_base yt_id : String) (yt : YTData) : String :=
  let created := _format_yt_timestamp yt.created
  descriptionPreamble yt_base yt_id yt.reporter created ++ "\n\n" ++
    replaceChar nlChar "<br />\n" yt.description

/-- The two attachment-relocation failure modes of the spec for one
attachment, in terms of the environment's responses at its resolved URL:
the download answers a non-success status, or the upload response parses
but lacks the "url" reference field. -/
def attachmentFails (env : Env) (yt_base : String) (a : Attachment) : Prop :=
  400 ≤ (env.download (resolveAttachmentUrl yt_base (a.url.getD ""))).status_code ∨
  ∃ obj, env.uploadJson a.name
      (env.download (resolveAttachmentUrl yt_base (a.url.getD ""))).content = some obj ∧
    obj.lookup "url" = none

/-! ## Helper lemmas -/

theorem download_events (env : Env) (url : String) :
    (_download_attachment env url).1 = [Event.getDownload url] := by
  unfold _download_attachment
  dsimp only
  split <;> rfl

theorem upload_events (env : Env) (name content : String) :
    (_upload_attachment env name content).1 = [Event.postUpload name content] := by
  unfold _upload_attachment
  split
  · rfl
  · split <;> rfl

theorem flatMap_singleton_of_ne {l : List Char} {c : Char} {repl : String}
    (h : ∀ ch ∈ l, ch ≠ c) :
    (l.flatMap fun ch => if ch = c then repl.data else [ch]) = l := by
  induction l with
  | nil => simp
  | cons x xs ih =>
    simp only [List.flatMap_cons]
    rw [if_neg (h x (by simp))]
    simp [ih fun ch hch => h ch (by simp [hch])]

theorem partitionOps_eq (ops : List SetFieldOperation) (c d : List PatchOp) :
    partitionOps ops (c, d) =
      (c ++ (ops.filter fun o => !o.set_after_creation).map
          (fun o => _set_field o.ado_field o.yt_field),
       d ++ (ops.filter fun o => o.set_after_creation).map
          (fun o => _set_field o.ado_field o.yt_field)) := by
  induction ops generalizing c d with
  | nil => simp [partitionOps]
  | cons o rest ih =>
    cases h : o.set_after_creation with
    | true => simp [partitionOps, h, ih]
    | false => simp [partitionOps, h, ih]

theorem filter_eq_nil_of_mem_imp {l : List Event} {p : Event → Bool}
    (h : ∀ e ∈ l, p e = false) : l.filter p = [] :=
  List.filter_eq_nil_iff.mpr fun e he => by simp [h e he]

theorem countP_eq_zero_of_mem_imp {l : List Event} {p : Event → Bool}
    (h : ∀ e ∈ l, p e = false) : l.countP p = 0 :=
  List.countP_eq_zero.mpr fun e he => by simp [h e he]

theorem mem_processCommentAttachments_events (env : Env) (yt_base : String) :
    ∀ (as : List Attachment) (text : String) (e : Event),
    e ∈ (processCommentAttachments env yt_base text as).1 →
    isGetDownload e = true ∨ isPostUpload e = true := by
  intro as
  induction as with
  | nil =>
    intro text e he
    simp [processCommentAttachments] at he
  | cons a rest ih =>
    intro text e he
    cases hf : pyFalsy a.url with
    | true =>
      simp only [processCommentAttachments, hf, if_true] at he
      exact ih text e he
    | false =>
      simp only [processCommentAttachments, hf, Bool.false_eq_true, if_false] at he
      rcases hd : _download_attachment env (resolveAttachmentUrl yt_base (a.url.getD ""))
        with ⟨ev1, r1⟩
      have hev1 : ev1 = [Event.getDownload (resolveAttachmentUrl yt_base (a.url.getD ""))] := by
        have h0 := download_events env (resolveAttachmentUrl yt_base (a.url.getD ""))
        rw [hd] at h0
        exact h0
      rw [hd] at he
      cases r1 with
      | error err =>
        rw [hev1] at he
        simp at he
        subst he
        exact Or.inl rfl
      | ok content =>
        dsimp only at he
        rcases hu : _upload_attachment env a.name content with ⟨ev2, r2⟩
        have hev2 : ev2 = [Event.postUpload a.name content] := by
          have h0 := upload_events env a.name content
          rw [hu] at h0
          exact h0
        rw [hu] at he
        cases r2 with
        | error err =>
          rw [hev1, hev2] at he
          simp at he
          rcases he with he | he <;> subst he
          · exact Or.inl rfl
          · exact Or.inr rfl
        | ok uurl =>
          rcases hp : processCommentAttachments env yt_base
              (text ++ "<br/><a href=\"" ++ uurl ++ "\">" ++ a.name ++ "</a>") rest
            with ⟨ev3, r3⟩
          dsimp only at he
          rw [hp] at he
          rw [hev1, hev2] at he
          simp only [List.append_assoc, List.cons_append, List.nil_append,
            List.mem_cons, List.mem_append] at he
          rcases he with he | he | he
          · subst he; exact Or.inl rfl
          · subst he; exact Or.inr rfl
          · have : e ∈ (processCommentAttachments env yt_base
                (text ++ "<br/><a href=\"" ++ uurl ++ "\">" ++ a.name ++ "</a>") rest).1 := by
              rw [hp]
              exact he
            exact ih _ e this

theorem mem_migrateComment_events (env : Env) (yt_base yt_id : String) (wid : Val)
    (c : Comment) (e : Event)
    (he : e ∈ (migrateComment env yt_base yt_id wid c).1) :
    isGetDownload e = true ∨ isPostUpload e = true ∨ isPostComment e = true := by
  unfold migrateComment at he
  rcases hp : processCommentAttachments env yt_base (initialCommentText yt_base yt_id c)
      c.attachments with ⟨ev, r⟩
  rw [hp] at he
  cases r with
  | error err =>
    have := mem_processCommentAttachments_events env yt_base c.attachments
      (initialCommentText yt_base yt_id c) e (by rw [hp]; exact he)
    tauto
  | ok t =>
    simp only [List.mem_append, List.mem_singleton] at he
    rcases he with he | he
    · have := mem_processCommentAttachments_events env yt_base c.attachments
        (initialCommentText yt_base yt_id c) e (by rw [hp]; exact he)
      tauto
    · subst he
      exact Or.inr (Or.inr rfl)

theorem mem_migrateComments_events (env : Env) (yt_base yt_id : String) (wid : Val) :
    ∀ (cs : List Comment) (e : Event),
    e ∈ (migrateComments env yt_base yt_id wid cs).1 →
    isGetDownload e = true ∨ isPostUpload e = true ∨ isPostComment e = true := by
  intro cs
  induction cs with
  | nil =>
    intro e he
    simp [migrateComments] at he
  | cons c rest ih =>
    intro e he
    unfold migrateComments at he
    rcases hc : migrateComment env yt_base yt_id wid c with ⟨ev, r⟩
    rw [hc] at he
    cases r with
    | error err =>
      exact mem_migrateComment_events env yt_base yt_id wid c e (by rw [hc]; exact he)
    | ok u =>
      rcases hr : migrateComments env yt_base yt_id wid rest with ⟨ev2, r2⟩
      rw [hr] at he
      simp only [List.mem_append] at he
      rcases he with he | he
      · exact mem_migrateComment_events env yt_base yt_id wid c e (by rw [hc]; exact he)
      · exact ih e (by rw [hr]; exact he)

theorem mem_migrateIssueAttachments_events (env : Env) (yt_base : String) (wid : Val) :
    ∀ (as : List Attachment) (e : Event),
    e ∈ (migrateIssueAttachments env yt_base wid as).1 →
    isGetDownload e = true ∨ isPostUpload e = true ∨ isPatchAttach e = true := by
  intro as
  induction as with
  | nil =>
    intro e he
    simp [migrateIssueAttachments] at he
  | cons a rest ih =>
    intro e he
    cases hf : pyFalsy a.url with
    | true =>
      simp only [migrateIssueAttachments, hf, if_true] at he
      exact ih e he
    | false =>
      simp only [migrateIssueAttachments, hf, Bool.false_eq_true, if_false] at he
      rcases hd : _download_attachment env (resolveAttachmentUrl yt_base (a.url.getD ""))
        with ⟨ev1, r1⟩
      have hev1 : ev1 = [Event.getDownload (resolveAttachmentUrl yt_base (a.url.getD ""))] := by
        have h0 := download_events env (resolveAttachmentUrl yt_base (a.url.getD ""))
        rw [hd] at h0
        exact h0
      rw [hd] at he
      cases r1 with
      | error err =>
        rw [hev1] at he
        simp at he
        subst he
        exact Or.inl rfl
      | ok content =>
        dsimp only at he
        rcases hu : _upload_attachment env a.name content with ⟨ev2, r2⟩
        have hev2 : ev2 = [Event.postUpload a.name content] := by
          have h0 := upload_events env a.name content
          rw [hu] at h0
          exact h0
        rw [hu] at he
        cases r2 with
        | error err =>
          rw [hev1, hev2] at he
          simp at he
          rcases he with he | he <;> subst he
          · exact Or.inl rfl
          · exact Or.inr (Or.inl rfl)
        | ok uurl =>
          rcases hr : migrateIssueAttachments env yt_base wid rest with ⟨ev3, r3⟩
          dsimp only at he
          rw [hr] at he
          rw [hev1, hev2] at he
          simp only [List.append_assoc, List.cons_append, List.nil_append,
            List.mem_cons, List.mem_append] at he
          rcases he with he | he | he | he
          · subst he; exact Or.inl rfl
          · subst he; exact Or.inr (Or.inl rfl)
          · subst he; exact Or.inr (Or.inr rfl)
          · exact ih e (by rw [hr]; exact he)

theorem kinds_not_getIssue_sleep {e : Event}
    (h : isGetDownload e = true ∨ isPostUpload e = true ∨ isPostComment e = true ∨
      isPatchAttach e = true) :
    isGetIssue e = false ∧ isSleep e = false := by
  cases e <;>
    simp_all [isGetDownload, isPostUpload, isPostComment, isPatchAttach, isGetIssue, isSleep]

theorem du_not_postComment {e : Event}
    (h : isGetDownload e = true ∨ isPostUpload e = true) : isPostComment e = false := by
  cases e <;> simp_all [isGetDownload, isPostUpload, isPostComment]

theorem du_not_patchAttach {e : Event}
    (h : isGetDownload e = true ∨ isPostUpload e = true) : isPatchAttach e = false := by
  cases e <;> simp_all [isGetDownload, isPostUpload, isPatchAttach]

theorem commentKinds_not_patchAttach {e : Event}
    (h : isGetDownload e = true ∨ isPostUpload e = true ∨ isPostComment e = true) :
    isPatchAttach e = false := by
  cases e <;> simp_all [isGetDownload, isPostUpload, isPostComment, isPatchAttach]

theorem attachKinds_not_postComment {e : Event}
    (h : isGetDownload e = true ∨ isPostUpload e = true ∨ isPatchAttach e = true) :
    isPostComment e = false := by
  cases e <;> simp_all [isGetDownload, isPostUpload, isPatchAttach, isPostComment]

theorem migrateComment_ok_filter (env : Env) (yt_base yt_id : String) (wid : Val)
    (c : Comment) (h : (migrateComment env yt_base yt_id wid c).2 = .ok ()) :
    (migrateComment env yt_base yt_id wid c).1.filter isPostComment =
      [Event.postComment wid (commentFinalText env yt_base yt_id c)] ∧
    (migrateComment env yt_base yt_id wid c).1.filter isPatchAttach = [] := by
  rcases hp : processCommentAttachments env yt_base (initialCommentText yt_base yt_id c)
      c.attachments with ⟨ev, r⟩
  have hevp : ∀ p : Event → Bool,
      (∀ e, isGetDownload e = true ∨ isPostUpload e = true → p e = false) →
      ev.filter p = [] := by
    intro p hk
    apply filter_eq_nil_of_mem_imp
    intro e he
    exact hk e (mem_processCommentAttachments_events env yt_base c.attachments _ e
      (by rw [hp]; exact he))
  cases r with
  | error err =>
    have hcontra : (migrateComment env yt_base yt_id wid c).2 = .error err := by
      unfold migrateComment
      rw [hp]
    rw [hcontra] at h
    exact absurd h (by simp)
  | ok t =>
    have he : migrateComment env yt_base yt_id wid c =
        (ev ++ [Event.postComment wid t], .ok ()) := by
      unfold migrateComment
      rw [hp]
    have ht : commentFinalText env yt_base yt_id c = t := by
      unfold commentFinalText
      rw [hp]
    rw [he, ht]
    constructor
    · dsimp only
      rw [List.filter_append, hevp isPostComment (fun e hk => du_not_postComment hk)]
      simp [isPostComment]
    · dsimp only
      rw [List.filter_append, hevp isPatchAttach (fun e hk => du_not_patchAttach hk)]
      simp [isPatchAttach]

theorem migrateComments_ok_filter (env : Env) (yt_base yt_id : String) (wid : Val) :
    ∀ cs, (migrateComments env yt_base yt_id wid cs).2 = .ok () →
    (migrateComments env yt_base yt_id wid cs).1.filter isPostComment =
      cs.map (fun c => Event.postComment wid (commentFinalText env yt_base yt_id c)) ∧
    (migrateComments env yt_base yt_id wid cs).1.filter isPatchAttach = [] := by
  intro cs
  induction cs with
  | nil =>
    intro _
    simp [migrateComments]
  | cons c rest ih =>
    intro h
    rcases hc : migrateComment env yt_base yt_id wid c with ⟨ev, r⟩
    cases r with
    | error err =>
      have he : migrateComments env yt_base yt_id wid (c :: rest) = (ev, .error err) := by
        unfold migrateComments
        rw [hc]
      rw [he] at h
      exact absurd h (by simp)
    | ok u =>
      rcases hr : migrateComments env yt_base yt_id wid rest with ⟨ev2, r2⟩
      have he : migrateComments env yt_base yt_id wid (c :: rest) = (ev ++ ev2, r2) := by
        unfold migrateComments
        rw [hc]
        dsimp only
        rw [hr]
      rw [he] at h
      dsimp only at h
      subst h
      have hok : (migrateComment env yt_base yt_id wid c).2 = .ok () := by
        rw [hc]
      have hrest : (migrateComments env yt_base yt_id wid rest).2 = .ok () := by
        rw [hr]
      obtain ⟨h1, h2⟩ := migrateComment_ok_filter env yt_base yt_id wid c hok
      obtain ⟨h3, h4⟩ := ih hrest
      rw [hc] at h1 h2
      rw [hr] at h3 h4
      dsimp only at h1 h2 h3 h4
      rw [he]
      constructor
      · dsimp only
        rw [List.filter_append, h1, h3]
        simp
      · dsimp only
        rw [List.filter_append, h2, h4]
        simp

theorem migrateIssueAttachments_ok_filter (env : Env) (yt_base : String) (wid : Val) :
    ∀ as, (migrateIssueAttachments env yt_base wid as).2 = .ok () →
    (migrateIssueAttachments env yt_base wid as).1.filter isPatchAttach =
      (as.filter (fun a => !pyFalsy a.url)).map
        (fun a => Event.patchAttach wid ⟨a.name, attachUploadedUrl env yt_base a⟩) ∧
    (migrateIssueAttachments env yt_base wid as).1.filter isPostComment = [] := by
  intro as
  induction as with
  | nil =>
    intro _
    simp [migrateIssueAttachments]
  | cons a rest ih =>
    intro h
    cases hf : pyFalsy a.url with
    | true =>
      have he : migrateIssueAttachments env yt_base wid (a :: rest) =
          migrateIssueAttachments env yt_base wid rest := by
        simp [migrateIssueAttachments, hf]
      rw [he] at h ⊢
      obtain ⟨h1, h2⟩ := ih h
      refine ⟨?_, h2⟩
      rw [h1]
      simp [hf]
    | false =>
      rcases hd : _download_attachment env (resolveAttachmentUrl yt_base (a.url.getD ""))
        with ⟨ev1, r1⟩
      have hev1 : ev1 = [Event.getDownload (resolveAttachmentUrl yt_base (a.url.getD ""))] := by
        have h0 := download_events env (resolveAttachmentUrl yt_base (a.url.getD ""))
        rw [hd] at h0
        exact h0
      cases r1 with
      | error err =>
        have he : migrateIssueAttachments env yt_base wid (a :: rest) = (ev1, .error err) := by
          simp only [migrateIssueAttachments, hf, Bool.false_eq_true, if_false]
          rw [hd]
        rw [he] at h
        exact absurd h (by simp)
      | ok content =>
        rcases hu : _upload_attachment env a.name content with ⟨ev2, r2⟩
        have hev2 : ev2 = [Event.postUpload a.name content] := by
          have h0 := upload_events env a.name content
          rw [hu] at h0
          exact h0
        cases r2 with
        | error err =>
          have he : migrateIssueAttachments env yt_base wid (a :: rest) =
              (ev1 ++ ev2, .error err) := by
            simp only [migrateIssueAttachments, hf, Bool.false_eq_true, if_false]
            rw [hd]
            dsimp only
            rw [hu]
          rw [he] at h
          exact absurd h (by simp)
        | ok uurl =>
          rcases hr : migrateIssueAttachments env yt_base wid rest with ⟨ev3, r3⟩
          have he : migrateIssueAttachments env yt_base wid (a :: rest) =
              (ev1 ++ ev2 ++ [Event.patchAttach wid ⟨a.name, uurl⟩] ++ ev3, r3) := by
            simp only [migrateIssueAttachments, hf, Bool.false_eq_true, if_false]
            rw [hd]
            dsimp only
            rw [hu]
            dsimp only
            rw [hr]
          have hurl : attachUploadedUrl env yt_base a = uurl := by
            unfold attachUploadedUrl
            rw [hd]
            dsimp only
            rw [hu]
          rw [he] at h
          dsimp only at h
          subst h
          obtain ⟨h3, h4⟩ := ih (by rw [hr])
          rw [hr] at h3 h4
          dsimp only at h3 h4
          rw [he]
          constructor
          · dsimp only
            rw [hev1, hev2]
            simp only [List.filter_append, h3]
            rw [List.filter_cons]
            simp [isPatchAttach, hf, hurl]
          · dsimp only
            rw [hev1, hev2]
            simp only [List.filter_append, h4]
            rw [List.filter_cons]
            simp [isPostComment]

/-! ## Claim C8 -/

/-- C8: the timestamp formatter maps epoch milliseconds to a timezone-naive
ISO-8601 string by integer division by 1000 (truncating the sub-second
part, not rounding); in particular 1609459200500 and 1609459200000 format
to the identical string. -/
theorem timestamp_truncation :
    (∀ t r : Int, 0 ≤ r → r < 1000 →
      _format_yt_timestamp (1000 * t + r) = _format_yt_timestamp (1000 * t)) ∧
    _format_yt_timestamp 1609459200500 = _format_yt_timestamp 1609459200000 ∧
    _format_yt_timestamp 1609459200000 = "2021-01-01T00:00:00" := by
  refine ⟨?_, by decide, by decide⟩
  intro t r hr hlt
  unfold _format_yt_timestamp
  congr 1
  rw [Int.fdiv_eq_ediv _ (by norm_num), Int.fdiv_eq_ediv _ (by norm_num)]
  rw [show (1000 : Int) * t + r = r + t * 1000 by ring]
  rw [Int.add_mul_ediv_right _ _ (by norm_num : (1000 : Int) ≠ 0)]
  rw [Int.ediv_eq_zero_of_lt hr hlt]
  rw [show (1000 : Int) * t = t * 1000 by ring]
  rw [Int.mul_ediv_cancel _ (by norm_num)]
  ring

/-- Witness for C8 at t = 1609459200, r = 500. -/
theorem timestamp_truncation_witness :
    ((0 : Int) ≤ 500 ∧ (500 : Int) < 1000) ∧
    _format_yt_timestamp (1000 * 1609459200 + 500) =
      _format_yt_timestamp (1000 * 1609459200) :=
  ⟨⟨by decide, by decide⟩, timestamp_truncation.1 1609459200 500 (by decide) (by decide)⟩

/-! ## Claim C10 -/

/-- C10: an attachment whose content locator is absent or empty is skipped
without raising and without any download, upload or attach call for it:
processing the attachment list with it at the head equals processing the
remaining attachments, in both the comment-scoped and the issue-level
loop. -/
theorem empty_locator_skipped :
    ∀ (env : Env) (yt_base : String) (wid : Val) (text : String)
      (a : Attachment) (rest : List Attachment),
    pyFalsy a.url = true →
    processCommentAttachments env yt_base text (a :: rest) =
      processCommentAttachments env yt_base text rest ∧
    migrateIssueAttachments env yt_base wid (a :: rest) =
      migrateIssueAttachments env yt_base wid rest := by
  intro env b w t a rest h
  constructor
  · simp [processCommentAttachments, h]
  · simp [migrateIssueAttachments, h]

/-- Witness for C10 at a url-less attachment. -/
theorem empty_locator_skipped_witness :
    pyFalsy (Attachment.mk "f.png" none).url = true ∧
    (processCommentAttachments demoEnv "https://yt" "t" [Attachment.mk "f.png" none] =
      processCommentAttachments demoEnv "https://yt" "t" [] ∧
     migrateIssueAttachments demoEnv "https://yt" (.int 1) [Attachment.mk "f.png" none] =
      migrateIssueAttachments demoEnv "https://yt" (.int 1) []) :=
  ⟨rfl, empty_locator_skipped demoEnv "https://yt" (.int 1) "t"
    (Attachment.mk "f.png" none) [] rfl⟩

/-! ## Claim C9 -/

/-- C9: an attachment locator that does not start with "http" is fetched
from the source base URL concatenated with the locator; in particular
"/files/x.png" against "https://src.example" resolves to
"https://src.example/files/x.png", and the issue-level attachment loop
issues its download GET against exactly that resolved URL. -/
theorem relative_url_resolution :
    (∀ yt_base u : String, pyStartsWith u "http" = false →
      resolveAttachmentUrl yt_base u = yt_base ++ u) ∧
    resolveAttachmentUrl "https://src.example" "/files/x.png" =
      "https://src.example/files/x.png" ∧
    (∀ (env : Env) (yt_base : String) (wid : Val) (a : Attachment)
       (rest : List Attachment) (u : String),
      a.url = some u → (u == "") = false → pyStartsWith u "http" = false →
      ∃ tail, (migrateIssueAttachments env yt_base wid (a :: rest)).1 =
        Event.getDownload (yt_base ++ u) :: tail) := by
  have base : ∀ yt_base u : String, pyStartsWith u "http" = false →
      resolveAttachmentUrl yt_base u = yt_base ++ u := by
    intro b u h
    simp [resolveAttachmentUrl, h]
  refine ⟨base, by decide, ?_⟩
  intro env b w a rest u ha hne hh
  have hf : pyFalsy a.url = false := by simp [pyFalsy, ha, hne]
  rcases hd : _download_attachment env (resolveAttachmentUrl b (a.url.getD "")) with ⟨ev1, r1⟩
  have hev1 : ev1 = [Event.getDownload (b ++ u)] := by
    have := download_events env (resolveAttachmentUrl b (a.url.getD ""))
    rw [hd] at this
    simpa [ha, base b u hh] using this
  cases r1 with
  | error e =>
    refine ⟨[], ?_⟩
    simp [migrateIssueAttachments, hf, hd, hev1]
  | ok content =>
    rcases hu : _upload_attachment env a.name content with ⟨ev2, r2⟩
    cases r2 with
    | error e =>
      refine ⟨ev2, ?_⟩
      simp [migrateIssueAttachments, hf, hd, hu, hev1]
    | ok uurl =>
      rcases hrest : migrateIssueAttachments env b w rest with ⟨ev3, r3⟩
      refine ⟨ev2 ++ [Event.patchAttach w ⟨a.name, uurl⟩] ++ ev3, ?_⟩
      simp [migrateIssueAttachments, hf, hd, hu, hrest, hev1]

/-- Witness for C9: the spec's example locator, fetched by the loop. -/
theorem relative_url_resolution_witness :
    ((Attachment.mk "x.png" (some "/files/x.png")).url = some "/files/x.png" ∧
     (("/files/x.png" == "") = false) ∧ pyStartsWith "/files/x.png" "http" = false) ∧
    (∃ tail, (migrateIssueAttachments demoEnv "https://src.example" (.int 1)
        [Attachment.mk "x.png" (some "/files/x.png")]).1 =
      Event.getDownload ("https://src.example" ++ "/files/x.png") :: tail) :=
  ⟨⟨rfl, by decide, by decide⟩,
   relative_url_resolution.2.2 demoEnv "https://src.example" (.int 1)
    (Attachment.mk "x.png" (some "/files/x.png")) [] "/files/x.png" rfl (by decide) (by decide)⟩

/-! ## Claim C2 -/

/-- Counterexample to C2 as stated: in the DEMO-1 scenario (only
pre-creation directives, zero comments, zero attachments) the trace of
`migrate_issue` does contain a destination PATCH call — the deferred-ops
patch is issued unconditionally, with an empty payload, so "no patch call
occurs" is false. -/
theorem demo_patch_call_counterexample :
    ¬ ((migrate_issue demoEnv "https://ryano0oceros.youtrack.cloud" "DEMO-1"
        demoHandler).1.countP isPatchCall = 0) ∧
    (migrate_issue demoEnv "https://ryano0oceros.youtrack.cloud" "DEMO-1"
        demoHandler).1.drop 2 = [Event.patchOps (Val.int 1) []] := by
  exact ⟨by decide, rfl⟩

/-- C2 (amended): for an issue whose policy yields only pre-creation
directives and which has zero comments and zero attachments, the trace of
`migrate_issue` is exactly the source fetch, the creation call, and one
patch call carrying the empty operation list — no comment-post or
attachment call occurs (the claim's "no patch call occurs" is corrected to
"one patch call with an empty payload occurs"). -/
theorem single_creation_call_plus_empty_patch :
    ∀ (env : Env) (yt_base yt_id : String) (handler : CustomFieldHandler)
      (yt : YTData) (res : List (String × Val)) (wid : Val),
    env.issueData yt_id = some yt →
    yt.comments = [] →
    yt.attachments = [] →
    (∀ o ∈ handler (_build_custom_field_dict yt), o.set_after_creation = false) →
    env.createJson (buildOps yt_base yt_id yt handler).1 = some res →
    res.lookup "id" = some wid →
    migrate_issue env yt_base yt_id handler =
      ([Event.getIssue (issueFetchUrl yt_base yt_id),
        Event.postCreate (buildOps yt_base yt_id yt handler).1,
        Event.patchOps wid []], .ok ()) := by
  intro env b i h yt res wid h1 hc ha hpre h2 h3
  have hops : (buildOps b i yt h).2 = [] := by
    unfold buildOps
    rw [partitionOps_eq]
    have : (h (_build_custom_field_dict yt)).filter (fun o => o.set_after_creation) = [] :=
      List.filter_eq_nil_iff.mpr (fun o ho => by simp [hpre o ho])
    simp [this]
  unfold migrate_issue
  rw [h1]
  simp only [h2, h3, hc, migrateComments, ha, migrateIssueAttachments, hops]
  rfl

/-- Witness for C2 (amended) at the DEMO-1 scenario. -/
theorem single_creation_call_witness :
    (demoEnv.issueData "DEMO-1" = some demoIssue ∧
     demoIssue.comments = [] ∧ demoIssue.attachments = [] ∧
     demoEnv.createJson (buildOps "https://yt" "DEMO-1" demoIssue demoHandler).1 =
       some [("id", .int 1)] ∧
     List.lookup "id" [("id", Val.int 1)] = some (Val.int 1)) ∧
    migrate_issue demoEnv "https://yt" "DEMO-1" demoHandler =
      ([Event.getIssue (issueFetchUrl "https://yt" "DEMO-1"),
        Event.postCreate (buildOps "https://yt" "DEMO-1" demoIssue demoHandler).1,
        Event.patchOps (Val.int 1) []], .ok ()) :=
  ⟨⟨rfl, rfl, rfl, rfl, rfl⟩,
   single_creation_call_plus_empty_patch demoEnv "https://yt" "DEMO-1" demoHandler
     demoIssue [("id", .int 1)] (.int 1) rfl rfl rfl
     (fun o ho => by
       simp [demoHandler, demoIssue, _build_custom_field_dict] at ho
       simp [ho])
     rfl rfl⟩

/-! ## Claim C3 -/

/-- Counterexample to C3 as stated: on the DEMO-1 issue the description the
source builds differs from the spec's body-only substitution — the two
newlines of the blank-line separator are themselves rewritten to the
line-break token. -/
theorem linebreak_separator_counterexample :
    buildDescription "https://yt" "DEMO-1" demoIssue ≠
      buildDescription_bodyOnlySpec "https://yt" "DEMO-1" demoIssue := by
  decide

/-- C3 (amended): the substitution is applied to the whole assembled
string after the preamble is assembled, so the blank-line separator's two
newlines are each rewritten to the line-break token; the preamble's own
characters are left unchanged whenever the preamble contains no newline. -/
theorem linebreak_substitution_whole_string :
    ∀ (yt_base yt_id : String) (yt : YTData),
    (∀ ch ∈ (descriptionPreamble yt_base yt_id yt.reporter
        (_format_yt_timestamp yt.created)).data, ch ≠ nlChar) →
    buildDescription yt_base yt_id yt =
      descriptionPreamble yt_base yt_id yt.reporter (_format_yt_timestamp yt.created) ++
        "<br />\n<br />\n" ++ replaceChar nlChar "<br />\n" yt.description := by
  intro b i yt hp
  apply String.ext
  simp only [buildDescription, replaceChar, String.data_append]
  rw [List.flatMap_append, List.flatMap_append]
  rw [flatMap_singleton_of_ne hp]
  congr 1

/-- Witness for C3 (amended) at the DEMO-1 issue. -/
theorem linebreak_substitution_witness :
    (∀ ch ∈ (descriptionPreamble "https://yt" "DEMO-1" demoIssue.reporter
        (_format_yt_timestamp demoIssue.created)).data, ch ≠ nlChar) ∧
    buildDescription "https://yt" "DEMO-1" demoIssue =
      descriptionPreamble "https://yt" "DEMO-1" demoIssue.reporter
          (_format_yt_timestamp demoIssue.created) ++
        "<br />\n<br />\n" ++ replaceChar nlChar "<br />\n" demoIssue.description :=
  ⟨by decide, linebreak_substitution_whole_string "https://yt" "DEMO-1" demoIssue (by decide)⟩

/-! ## Claim C4 -/

/-- C4: when the creation response lacks an "id" field, `migrate_issue`
raises a runtime error whose message names the issue identifier and
includes the raw response, and the trace stops at the creation call — no
patch, comment post, or attachment download/upload/attach follows. -/
theorem missing_id_fatal :
    ∀ (env : Env) (yt_base yt_id : String) (handler : CustomFieldHandler)
      (yt : YTData) (res : List (String × Val)),
    env.issueData yt_id = some yt →
    env.createJson (buildOps yt_base yt_id yt handler).1 = some res →
    res.lookup "id" = none →
    migrate_issue env yt_base yt_id handler =
      ([Event.getIssue (issueFetchUrl yt_base yt_id),
        Event.postCreate (buildOps yt_base yt_id yt handler).1],
       .error (.runtimeError
         ("migration of " ++ yt_id ++ " failed: " ++ pyReprVal (.obj res)))) := by
  intro env b i h yt res h1 h2 h3
  unfold migrate_issue
  rw [h1]
  simp only [h2, h3]

/-- Witness for C4: a creation response carrying only an error body. -/
theorem missing_id_fatal_witness :
    (noIdEnv.issueData "DEMO-1" = some demoIssue ∧
     noIdEnv.createJson (buildOps "https://yt" "DEMO-1" demoIssue demoHandler).1 =
       some [("error", .str "denied")] ∧
     List.lookup "id" [("error", Val.str "denied")] = none) ∧
    migrate_issue noIdEnv "https://yt" "DEMO-1" demoHandler =
      ([Event.getIssue (issueFetchUrl "https://yt" "DEMO-1"),
        Event.postCreate (buildOps "https://yt" "DEMO-1" demoIssue demoHandler).1],
       .error (.runtimeError
         ("migration of " ++ "DEMO-1" ++ " failed: " ++
           pyReprVal (.obj [("error", .str "denied")])))) :=
  ⟨⟨rfl, rfl, rfl⟩,
   missing_id_fatal noIdEnv "https://yt" "DEMO-1" demoHandler demoIssue
     [("error", .str "denied")] rfl rfl rfl⟩

/-! ## Claim C7 -/

/-- C7: each directive the policy yields is placed in exactly one of the
two payloads according to its phase flag — the policy-derived part of the
creation payload is the pre-creation directives in order, the patch payload
is the post-creation directives in order, their lengths sum to the full
directive count, their concatenation is a permutation of the full directive
list, and a directive lands in the payload its flag selects. -/
theorem phase_partition :
    ∀ (yt_base yt_id : String) (yt : YTData) (handler : CustomFieldHandler),
    (buildOps yt_base yt_id yt handler).1.drop 2 =
      ((handler (_build_custom_field_dict yt)).filter
        (fun o => !o.set_after_creation)).map
          (fun o => _set_field o.ado_field o.yt_field) ∧
    (buildOps yt_base yt_id yt handler).2 =
      ((handler (_build_custom_field_dict yt)).filter
        (fun o => o.set_after_creation)).map
          (fun o => _set_field o.ado_field o.yt_field) ∧
    ((buildOps yt_base yt_id yt handler).1.drop 2).length +
        (buildOps yt_base yt_id yt handler).2.length =
      (handler (_build_custom_field_dict yt)).length ∧
    ((buildOps yt_base yt_id yt handler).1.drop 2 ++
        (buildOps yt_base yt_id yt handler).2).Perm
      ((handler (_build_custom_field_dict yt)).map
        (fun o => _set_field o.ado_field o.yt_field)) ∧
    (∀ o ∈ handler (_build_custom_field_dict yt),
      (o.set_after_creation = false →
        _set_field o.ado_field o.yt_field ∈ (buildOps yt_base yt_id yt handler).1.drop 2) ∧
      (o.set_after_creation = true →
        _set_field o.ado_field o.yt_field ∈ (buildOps yt_base yt_id yt handler).2)) := by
  intro b i yt h
  have he : buildOps b i yt h =
      ([_set_field "System.Title" (.str yt.summary),
        _set_field "System.Description" (.str (buildDescription b i yt))] ++
         ((h (_build_custom_field_dict yt)).filter
           (fun o => !o.set_after_creation)).map
             (fun o => _set_field o.ado_field o.yt_field),
       ((h (_build_custom_field_dict yt)).filter
         (fun o => o.set_after_creation)).map
           (fun o => _set_field o.ado_field o.yt_field)) := by
    unfold buildOps
    rw [partitionOps_eq]
    simp
  rw [he]
  have hdrop : ∀ (x : List PatchOp) (A B : PatchOp), ([A, B] ++ x).drop 2 = x :=
    fun _ _ _ => rfl
  rw [hdrop]
  have hperm : ((((h (_build_custom_field_dict yt)).filter
        (fun o => !o.set_after_creation)).map
          (fun o => _set_field o.ado_field o.yt_field)) ++
      (((h (_build_custom_field_dict yt)).filter
        (fun o => o.set_after_creation)).map
          (fun o => _set_field o.ado_field o.yt_field))).Perm
      ((h (_build_custom_field_dict yt)).map
        (fun o => _set_field o.ado_field o.yt_field)) := by
    have hp := (List.filter_append_perm (fun o : SetFieldOperation => !o.set_after_creation)
      (h (_build_custom_field_dict yt))).map
        (fun o => _set_field o.ado_field o.yt_field)
    simpa [Bool.not_not] using hp
  refine ⟨rfl, rfl, ?_, hperm, ?_⟩
  · have hl := hperm.length_eq
    simpa [List.length_append] using hl
  · intro o ho
    constructor
    · intro hflag
      exact List.mem_map.mpr ⟨o, List.mem_filter.mpr ⟨ho, by simp [hflag]⟩, rfl⟩
    · intro hflag
      exact List.mem_map.mpr ⟨o, List.mem_filter.mpr ⟨ho, by simp [hflag]⟩, rfl⟩

/-! ## Claim C1 -/

/-- Counterexample to C1 as stated: with two issue-level attachments whose
downloads answer 404, `migrate_issue` raises the HTTP error instead of
skipping the attachment — the run ends in an exception, no upload or attach
call is made, and the second attachment is never even fetched, so the
migration of the rest of the issue does not continue to completion. -/
theorem attachment_transport_error_counterexample :
    (migrate_issue attachFailEnv "https://yt" "I-1" (fun _ => [])).2 =
      .error (.httpError 404) ∧
    (migrate_issue attachFailEnv "https://yt" "I-1" (fun _ => [])).1.countP isPostUpload = 0 ∧
    (migrate_issue attachFailEnv "https://yt" "I-1" (fun _ => [])).1.countP isPatchAttach = 0 ∧
    (migrate_issue attachFailEnv "https://yt" "I-1" (fun _ => [])).1.countP isGetDownload = 1 :=
  ⟨rfl, rfl, rfl, rfl⟩

theorem migrateIssueAttachments_cons_skip (env : Env) (yt_base : String) (wid : Val)
    (a : Attachment) (rest : List Attachment) (hf : pyFalsy a.url = true) :
    migrateIssueAttachments env yt_base wid (a :: rest) =
      migrateIssueAttachments env yt_base wid rest := by
  simp [migrateIssueAttachments, hf]

theorem migrateIssueAttachments_cons_dlerr (env : Env) (yt_base : String) (wid : Val)
    (a : Attachment) (rest : List Attachment) (ev1 : List Event) (err : PyErr)
    (hf : pyFalsy a.url = false)
    (hd : _download_attachment env (resolveAttachmentUrl yt_base (a.url.getD "")) =
      (ev1, .error err)) :
    migrateIssueAttachments env yt_base wid (a :: rest) = (ev1, .error err) := by
  simp only [migrateIssueAttachments, hf, Bool.false_eq_true, if_false]
  rw [hd]

theorem migrateIssueAttachments_cons_uperr (env : Env) (yt_base : String) (wid : Val)
    (a : Attachment) (rest : List Attachment) (ev1 ev2 : List Event)
    (content : String) (err : PyErr)
    (hf : pyFalsy a.url = false)
    (hd : _download_attachment env (resolveAttachmentUrl yt_base (a.url.getD "")) =
      (ev1, .ok content))
    (hu : _upload_attachment env a.name content = (ev2, .error err)) :
    migrateIssueAttachments env yt_base wid (a :: rest) = (ev1 ++ ev2, .error err) := by
  simp only [migrateIssueAttachments, hf, Bool.false_eq_true, if_false]
  rw [hd]
  dsimp only
  rw [hu]

theorem migrateIssueAttachments_cons_succ (env : Env) (yt_base : String) (wid : Val)
    (a : Attachment) (rest : List Attachment) (ev1 ev2 ev3 : List Event)
    (content uurl : String) (r3 : Except PyErr Unit)
    (hf : pyFalsy a.url = false)
    (hd : _download_attachment env (resolveAttachmentUrl yt_base (a.url.getD "")) =
      (ev1, .ok content))
    (hu : _upload_attachment env a.name content = (ev2, .ok uurl))
    (hr : migrateIssueAttachments env yt_base wid rest = (ev3, r3)) :
    migrateIssueAttachments env yt_base wid (a :: rest) =
      (ev1 ++ ev2 ++ [Event.patchAttach wid ⟨a.name, uurl⟩] ++ ev3, r3) := by
  simp only [migrateIssueAttachments, hf, Bool.false_eq_true, if_false]
  rw [hd]
  dsimp only
  rw [hu]
  dsimp only
  rw [hr]

theorem processCommentAttachments_cons_skip (env : Env) (yt_base text : String)
    (a : Attachment) (rest : List Attachment) (hf : pyFalsy a.url = true) :
    processCommentAttachments env yt_base text (a :: rest) =
      processCommentAttachments env yt_base text rest := by
  simp [processCommentAttachments, hf]

theorem processCommentAttachments_cons_dlerr (env : Env) (yt_base text : String)
    (a : Attachment) (rest : List Attachment) (ev1 : List Event) (err : PyErr)
    (hf : pyFalsy a.url = false)
    (hd : _download_attachment env (resolveAttachmentUrl yt_base (a.url.getD "")) =
      (ev1, .error err)) :
    processCommentAttachments env yt_base text (a :: rest) = (ev1, .error err) := by
  simp only [processCommentAttachments, hf, Bool.false_eq_true, if_false]
  rw [hd]

theorem processCommentAttachments_cons_uperr (env : Env) (yt_base text : String)
    (a : Attachment) (rest : List Attachment) (ev1 ev2 : List Event)
    (content : String) (err : PyErr)
    (hf : pyFalsy a.url = false)
    (hd : _download_attachment env (resolveAttachmentUrl yt_base (a.url.getD "")) =
      (ev1, .ok content))
    (hu : _upload_attachment env a.name content = (ev2, .error err)) :
    processCommentAttachments env yt_base text (a :: rest) = (ev1 ++ ev2, .error err) := by
  simp only [processCommentAttachments, hf, Bool.false_eq_true, if_false]
  rw [hd]
  dsimp only
  rw [hu]

theorem processCommentAttachments_cons_succ (env : Env) (yt_base text : String)
    (a : Attachment) (rest : List Attachment) (ev1 ev2 ev3 : List Event)
    (content uurl : String) (r3 : Except PyErr String)
    (hf : pyFalsy a.url = false)
    (hd : _download_attachment env (resolveAttachmentUrl yt_base (a.url.getD "")) =
      (ev1, .ok content))
    (hu : _upload_attachment env a.name content = (ev2, .ok uurl))
    (hp : processCommentAttachments env yt_base
      (text ++ "<br/><a href=\"" ++ uurl ++ "\">" ++ a.name ++ "</a>") rest = (ev3, r3)) :
    processCommentAttachments env yt_base text (a :: rest) = (ev1 ++ ev2 ++ ev3, r3) := by
  simp only [processCommentAttachments, hf, Bool.false_eq_true, if_false]
  rw [hd]
  dsimp only
  rw [hu]
  dsimp only
  rw [hp]

theorem download_ok_not_ge {env : Env} {url : String} {ev : List Event} {content : String}
    (hd : _download_attachment env url = (ev, .ok content)) :
    ¬ 400 ≤ (env.download url).status_code := by
  intro hge
  unfold _download_attachment at hd
  dsimp only at hd
  rw [if_pos hge] at hd
  simp at hd

theorem download_ok_content {env : Env} {url : String} {ev : List Event} {content : String}
    (hd : _download_attachment env url = (ev, .ok content)) :
    content = (env.download url).content := by
  unfold _download_attachment at hd
  dsimp only at hd
  by_cases hge : 400 ≤ (env.download url).status_code
  · rw [if_pos hge] at hd
    simp at hd
  · rw [if_neg hge] at hd
    rw [Prod.mk.injEq] at hd
    have h2 := hd.2
    injection h2 with h3
    exact h3.symm

theorem upload_ok_lookup {env : Env} {name content : String} {ev : List Event} {uurl : String}
    (hu : _upload_attachment env name content = (ev, .ok uurl)) :
    ∀ obj, env.uploadJson name content = some obj → obj.lookup "url" ≠ none := by
  intro obj hobj hnone
  unfold _upload_attachment at hu
  rw [hobj] at hu
  dsimp only at hu
  rw [hnone] at hu
  simp at hu

theorem migrateIssueAttachments_fails_of_mem (env : Env) (yt_base : String) (wid : Val) :
    ∀ (as : List Attachment) (a : Attachment), a ∈ as →
    pyFalsy a.url = false → attachmentFails env yt_base a →
    ∃ e, (migrateIssueAttachments env yt_base wid as).2 = .error e := by
  intro as
  induction as with
  | nil =>
    intro a ha _ _
    simp at ha
  | cons a0 rest ih =>
    intro a ha hfa hfail
    cases hf0 : pyFalsy a0.url with
    | true =>
      rw [migrateIssueAttachments_cons_skip env yt_base wid a0 rest hf0]
      rcases List.mem_cons.mp ha with heq | hmem
      · subst heq
        rw [hfa] at hf0
        exact absurd hf0 (by decide)
      · exact ih a hmem hfa hfail
    | false =>
      rcases hd : _download_attachment env (resolveAttachmentUrl yt_base (a0.url.getD ""))
        with ⟨ev1, r1⟩
      cases r1 with
      | error err =>
        rw [migrateIssueAttachments_cons_dlerr env yt_base wid a0 rest ev1 err hf0 hd]
        exact ⟨err, rfl⟩
      | ok content =>
        rcases hu : _upload_attachment env a0.name content with ⟨ev2, r2⟩
        cases r2 with
        | error err =>
          rw [migrateIssueAttachments_cons_uperr env yt_base wid a0 rest ev1 ev2
            content err hf0 hd hu]
          exact ⟨err, rfl⟩
        | ok uurl =>
          rcases List.mem_cons.mp ha with heq | hmem
          · subst heq
            rcases hfail with hge | ⟨obj, hobj, hnone⟩
            · exact absurd hge (download_ok_not_ge hd)
            · have hc := download_ok_content hd
              rw [hc] at hu
              exact absurd hnone (upload_ok_lookup hu obj hobj)
          · rcases hr : migrateIssueAttachments env yt_base wid rest with ⟨ev3, r3⟩
            rw [migrateIssueAttachments_cons_succ env yt_base wid a0 rest ev1 ev2 ev3
              content uurl r3 hf0 hd hu hr]
            obtain ⟨e, he⟩ := ih a hmem hfa hfail
            rw [hr] at he
            exact ⟨e, he⟩

theorem processCommentAttachments_fails_of_mem (env : Env) (yt_base : String) :
    ∀ (as : List Attachment) (text : String) (a : Attachment), a ∈ as →
    pyFalsy a.url = false → attachmentFails env yt_base a →
    ∃ e, (processCommentAttachments env yt_base text as).2 = .error e := by
  intro as
  induction as with
  | nil =>
    intro text a ha _ _
    simp at ha
  | cons a0 rest ih =>
    intro text a ha hfa hfail
    cases hf0 : pyFalsy a0.url with
    | true =>
      rw [processCommentAttachments_cons_skip env yt_base text a0 rest hf0]
      rcases List.mem_cons.mp ha with heq | hmem
      · subst heq
        rw [hfa] at hf0
        exact absurd hf0 (by decide)
      · exact ih text a hmem hfa hfail
    | false =>
      rcases hd : _download_attachment env (resolveAttachmentUrl yt_base (a0.url.getD ""))
        with ⟨ev1, r1⟩
      cases r1 with
      | error err =>
        rw [processCommentAttachments_cons_dlerr env yt_base text a0 rest ev1 err hf0 hd]
        exact ⟨err, rfl⟩
      | ok content =>
        rcases hu : _upload_attachment env a0.name content with ⟨ev2, r2⟩
        cases r2 with
        | error err =>
          rw [processCommentAttachments_cons_uperr env yt_base text a0 rest ev1 ev2
            content err hf0 hd hu]
          exact ⟨err, rfl⟩
        | ok uurl =>
          rcases List.mem_cons.mp ha with heq | hmem
          · subst heq
            rcases hfail with hge | ⟨obj, hobj, hnone⟩
            · exact absurd hge (download_ok_not_ge hd)
            · have hc := download_ok_content hd
              rw [hc] at hu
              exact absurd hnone (upload_ok_lookup hu obj hobj)
          · rcases hp : processCommentAttachments env yt_base
                (text ++ "<br/><a href=\"" ++ uurl ++ "\">" ++ a0.name ++ "</a>") rest
              with ⟨ev3, r3⟩
            rw [processCommentAttachments_cons_succ env yt_base text a0 rest ev1 ev2 ev3
              content uurl r3 hf0 hd hu hp]
            obtain ⟨e, he⟩ := ih
              (text ++ "<br/><a href=\"" ++ uurl ++ "\">" ++ a0.name ++ "</a>")
              a hmem hfa hfail
            rw [hp] at he
            exact ⟨e, he⟩

theorem migrateComment_fails (env : Env) (yt_base yt_id : String) (wid : Val) (c : Comment)
    (a : Attachment) (ha : a ∈ c.attachments) (hfa : pyFalsy a.url = false)
    (hfail : attachmentFails env yt_base a) :
    ∃ e, (migrateComment env yt_base yt_id wid c).2 = .error e := by
  obtain ⟨e, he⟩ := processCommentAttachments_fails_of_mem env yt_base c.attachments
    (initialCommentText yt_base yt_id c) a ha hfa hfail
  rcases hp : processCommentAttachments env yt_base (initialCommentText yt_base yt_id c)
    c.attachments with ⟨ev, r⟩
  rw [hp] at he
  dsimp only at he
  subst he
  refine ⟨e, ?_⟩
  unfold migrateComment
  rw [hp]

theorem migrateComments_fails (env : Env) (yt_base yt_id : String) (wid : Val) :
    ∀ (cs : List Comment),
    (∃ c ∈ cs, ∃ a ∈ c.attachments,
      pyFalsy a.url = false ∧ attachmentFails env yt_base a) →
    ∃ e, (migrateComments env yt_base yt_id wid cs).2 = .error e := by
  intro cs
  induction cs with
  | nil =>
    intro hex
    simp at hex
  | cons c0 rest ih =>
    intro hex
    rcases hc : migrateComment env yt_base yt_id wid c0 with ⟨ev, r⟩
    cases r with
    | error err =>
      have he : migrateComments env yt_base yt_id wid (c0 :: rest) = (ev, .error err) := by
        unfold migrateComments
        rw [hc]
      rw [he]
      exact ⟨err, rfl⟩
    | ok u =>
      rcases hr : migrateComments env yt_base yt_id wid rest with ⟨ev2, r2⟩
      have he : migrateComments env yt_base yt_id wid (c0 :: rest) = (ev ++ ev2, r2) := by
        unfold migrateComments
        rw [hc]
        dsimp only
        rw [hr]
      rcases hex with ⟨c, hcmem, a, hamem, hfa, hfail⟩
      rcases List.mem_cons.mp hcmem with heq | hmem
      · subst heq
        obtain ⟨e, hce⟩ := migrateComment_fails env yt_base yt_id wid c a hamem hfa hfail
        rw [hc] at hce
        dsimp only at hce
        simp at hce
      · obtain ⟨e, he2⟩ := ih ⟨c, hmem, a, hamem, hfa, hfail⟩
        rw [hr] at he2
        dsimp only at he2
        rw [he]
        exact ⟨e, he2⟩

theorem migrate_issue_attachment_fails (env : Env) (yt_base yt_id : String)
    (handler : CustomFieldHandler) (yt : YTData) (res : List (String × Val)) (wid : Val)
    (h1 : env.issueData yt_id = some yt)
    (h2 : env.createJson (buildOps yt_base yt_id yt handler).1 = some res)
    (h3 : res.lookup "id" = some wid)
    (hex : (∃ c ∈ yt.comments, ∃ a ∈ c.attachments,
        pyFalsy a.url = false ∧ attachmentFails env yt_base a) ∨
      (∃ a ∈ yt.attachments, pyFalsy a.url = false ∧ attachmentFails env yt_base a)) :
    ∃ e, (migrate_issue env yt_base yt_id handler).2 = .error e := by
  unfold migrate_issue
  rw [h1]
  dsimp only
  rw [h2]
  dsimp only
  rw [h3]
  dsimp only
  rcases hcm : migrateComments env yt_base yt_id wid yt.comments with ⟨cev, cr⟩
  cases cr with
  | error err => exact ⟨err, rfl⟩
  | ok u =>
    cases hex with
    | inl hcom =>
      obtain ⟨e, he⟩ := migrateComments_fails env yt_base yt_id wid yt.comments hcom
      rw [hcm] at he
      dsimp only at he
      simp at he
    | inr hatt =>
      obtain ⟨a, hmem, hfa, hfail⟩ := hatt
      obtain ⟨e, he⟩ := migrateIssueAttachments_fails_of_mem env yt_base wid
        yt.attachments a hmem hfa hfail
      exact ⟨e, he⟩

/-- C1 (amended): only a missing or empty locator is logged and skipped.
For every other attachment — comment-scoped or issue-level, at any position
in its sequence — a download returning a non-success status raises the HTTP
error and an upload response lacking the "url" reference raises a key
error: the loop that reached the attachment stops at it (its trace ends at
the failing call, with no upload or attach for it and no later attachment
processed), and the exception propagates so that `migrate_issue` ends in an
error instead of continuing the issue to completion. -/
theorem attachment_transport_error_aborts_issue :
    ∀ (env : Env) (yt_base : String),
    (∀ (wid : Val) (a : Attachment) (rest : List Attachment),
      pyFalsy a.url = false →
      400 ≤ (env.download (resolveAttachmentUrl yt_base (a.url.getD ""))).status_code →
      migrateIssueAttachments env yt_base wid (a :: rest) =
        ([Event.getDownload (resolveAttachmentUrl yt_base (a.url.getD ""))],
         .error (.httpError
           (env.download (resolveAttachmentUrl yt_base (a.url.getD ""))).status_code))) ∧
    (∀ (wid : Val) (a : Attachment) (rest : List Attachment) (obj : List (String × Val)),
      pyFalsy a.url = false →
      (env.download (resolveAttachmentUrl yt_base (a.url.getD ""))).status_code < 400 →
      env.uploadJson a.name
        (env.download (resolveAttachmentUrl yt_base (a.url.getD ""))).content = some obj →
      obj.lookup "url" = none →
      migrateIssueAttachments env yt_base wid (a :: rest) =
        ([Event.getDownload (resolveAttachmentUrl yt_base (a.url.getD "")),
          Event.postUpload a.name
            (env.download (resolveAttachmentUrl yt_base (a.url.getD ""))).content],
         .error (.keyError "url"))) ∧
    (∀ (text : String) (a : Attachment) (rest : List Attachment),
      pyFalsy a.url = false →
      400 ≤ (env.download (resolveAttachmentUrl yt_base (a.url.getD ""))).status_code →
      processCommentAttachments env yt_base text (a :: rest) =
        ([Event.getDownload (resolveAttachmentUrl yt_base (a.url.getD ""))],
         .error (.httpError
           (env.download (resolveAttachmentUrl yt_base (a.url.getD ""))).status_code))) ∧
    (∀ (text : String) (a : Attachment) (rest : List Attachment) (obj : List (String × Val)),
      pyFalsy a.url = false →
      (env.download (resolveAttachmentUrl yt_base (a.url.getD ""))).status_code < 400 →
      env.uploadJson a.name
        (env.download (resolveAttachmentUrl yt_base (a.url.getD ""))).content = some obj →
      obj.lookup "url" = none →
      processCommentAttachments env yt_base text (a :: rest) =
        ([Event.getDownload (resolveAttachmentUrl yt_base (a.url.getD "")),
          Event.postUpload a.name
            (env.download (resolveAttachmentUrl yt_base (a.url.getD ""))).content],
         .error (.keyError "url"))) ∧
    (∀ (wid : Val) (as : List Attachment) (a : Attachment), a ∈ as →
      pyFalsy a.url = false → attachmentFails env yt_base a →
      ∃ e, (migrateIssueAttachments env yt_base wid as).2 = .error e) ∧
    (∀ (text : String) (as : List Attachment) (a : Attachment), a ∈ as →
      pyFalsy a.url = false → attachmentFails env yt_base a →
      ∃ e, (processCommentAttachments env yt_base text as).2 = .error e) ∧
    (∀ (yt_id : String) (handler : CustomFieldHandler) (yt : YTData)
       (res : List (String × Val)) (wid : Val),
      env.issueData yt_id = some yt →
      env.createJson (buildOps yt_base yt_id yt handler).1 = some res →
      res.lookup "id" = some wid →
      ((∃ c ∈ yt.comments, ∃ a ∈ c.attachments,
          pyFalsy a.url = false ∧ attachmentFails env yt_base a) ∨
       (∃ a ∈ yt.attachments, pyFalsy a.url = false ∧ attachmentFails env yt_base a)) →
      ∃ e, (migrate_issue env yt_base yt_id handler).2 = .error e) := by
  intro env b
  refine ⟨?_, ?_, ?_, ?_, ?_, ?_, ?_⟩
  · intro wid a rest hf hge
    have hd : _download_attachment env (resolveAttachmentUrl b (a.url.getD "")) =
        ([Event.getDownload (resolveAttachmentUrl b (a.url.getD ""))],
         .error (.httpError
           (env.download (resolveAttachmentUrl b (a.url.getD ""))).status_code)) := by
      unfold _download_attachment
      dsimp only
      rw [if_pos hge]
    exact migrateIssueAttachments_cons_dlerr env b wid a rest _ _ hf hd
  · intro wid a rest obj hf hlt hobj hnone
    have hd : _download_attachment env (resolveAttachmentUrl b (a.url.getD "")) =
        ([Event.getDownload (resolveAttachmentUrl b (a.url.getD ""))],
         .ok (env.download (resolveAttachmentUrl b (a.url.getD ""))).content) := by
      unfold _download_attachment
      dsimp only
      rw [if_neg (by omega)]
    have hu : _upload_attachment env a.name
        (env.download (resolveAttachmentUrl b (a.url.getD ""))).content =
        ([Event.postUpload a.name
           (env.download (resolveAttachmentUrl b (a.url.getD ""))).content],
         .error (.keyError "url")) := by
      unfold _upload_attachment
      rw [hobj]
      dsimp only
      rw [hnone]
    exact migrateIssueAttachments_cons_uperr env b wid a rest _ _ _ _ hf hd hu
  · intro text a rest hf hge
    have hd : _download_attachment env (resolveAttachmentUrl b (a.url.getD "")) =
        ([Event.getDownload (resolveAttachmentUrl b (a.url.getD ""))],
         .error (.httpError
           (env.download (resolveAttachmentUrl b (a.url.getD ""))).status_code)) := by
      unfold _download_attachment
      dsimp only
      rw [if_pos hge]
    exact processCommentAttachments_cons_dlerr env b text a rest _ _ hf hd
  · intro text a rest obj hf hlt hobj hnone
    have hd : _download_attachment env (resolveAttachmentUrl b (a.url.getD "")) =
        ([Event.getDownload (resolveAttachmentUrl b (a.url.getD ""))],
         .ok (env.download (resolveAttachmentUrl b (a.url.getD ""))).content) := by
      unfold _download_attachment
      dsimp only
      rw [if_neg (by omega)]
    have hu : _upload_attachment env a.name
        (env.download (resolveAttachmentUrl b (a.url.getD ""))).content =
        ([Event.postUpload a.name
           (env.download (resolveAttachmentUrl b (a.url.getD ""))).content],
         .error (.keyError "url")) := by
      unfold _upload_attachment
      rw [hobj]
      dsimp only
      rw [hnone]
    exact processCommentAttachments_cons_uperr env b text a rest _ _ _ _ hf hd hu
  · intro wid as a ha hf hfail
    exact migrateIssueAttachments_fails_of_mem env b wid as a ha hf hfail
  · intro text as a ha hf hfail
    exact processCommentAttachments_fails_of_mem env b as text a ha hf hfail
  · intro i handler yt res wid h1 h2 h3 hex
    exact migrate_issue_attachment_fails env b i handler yt res wid h1 h2 h3 hex

/-- Witness for C1 (amended): the 404 download on the first issue-level
attachment aborts the attachment loop with the HTTP error, and the same
failing attachment makes the whole issue migration end in an error. -/
theorem attachment_transport_error_witness :
    (pyFalsy (Attachment.mk "a.png" (some "/files/a.png")).url = false ∧
     400 ≤ (attachFailEnv.download (resolveAttachmentUrl "https://yt"
       ((Attachment.mk "a.png" (some "/files/a.png")).url.getD ""))).status_code ∧
     attachFailEnv.issueData "I-1" = some attachFailIssue ∧
     Attachment.mk "a.png" (some "/files/a.png") ∈ attachFailIssue.attachments ∧
     attachmentFails attachFailEnv "https://yt"
       (Attachment.mk "a.png" (some "/files/a.png"))) ∧
    migrateIssueAttachments attachFailEnv "https://yt" (.int 7)
        (Attachment.mk "a.png" (some "/files/a.png") ::
          [Attachment.mk "b.png" (some "/files/b.png")]) =
      ([Event.getDownload (resolveAttachmentUrl "https://yt"
          ((Attachment.mk "a.png" (some "/files/a.png")).url.getD ""))],
       .error (.httpError (attachFailEnv.download (resolveAttachmentUrl "https://yt"
          ((Attachment.mk "a.png" (some "/files/a.png")).url.getD ""))).status_code)) ∧
    (∃ e, (migrate_issue attachFailEnv "https://yt" "I-1" (fun _ => [])).2 = .error e) :=
  ⟨⟨by decide, by decide, rfl, by simp [attachFailIssue], Or.inl (by decide)⟩,
   (attachment_transport_error_aborts_issue attachFailEnv "https://yt").1 (.int 7)
     (Attachment.mk "a.png" (some "/files/a.png"))
     [Attachment.mk "b.png" (some "/files/b.png")] (by decide) (by decide),
   (attachment_transport_error_aborts_issue attachFailEnv "https://yt").2.2.2.2.2.2
     "I-1" (fun _ => []) attachFailIssue [("id", .int 7)] (.int 7) rfl rfl rfl
     (Or.inr ⟨Attachment.mk "a.png" (some "/files/a.png"),
       by simp [attachFailIssue], by decide, Or.inl (by decide)⟩)⟩

/-! ## Claim C5 -/

theorem migrate_issue_counts (env : Env) (yt_base yt_id : String)
    (handler : CustomFieldHandler) :
    (migrate_issue env yt_base yt_id handler).1.countP isGetIssue = 1 ∧
    (migrate_issue env yt_base yt_id handler).1.countP isSleep = 0 := by
  have hcm : ∀ (wid : Val) (cs : List Comment),
      (migrateComments env yt_base yt_id wid cs).1.countP isGetIssue = 0 ∧
      (migrateComments env yt_base yt_id wid cs).1.countP isSleep = 0 := by
    intro wid cs
    constructor <;> refine countP_eq_zero_of_mem_imp fun e he => ?_
    · exact (kinds_not_getIssue_sleep (by
        have := mem_migrateComments_events env yt_base yt_id wid cs e he
        tauto)).1
    · exact (kinds_not_getIssue_sleep (by
        have := mem_migrateComments_events env yt_base yt_id wid cs e he
        tauto)).2
  have hatt : ∀ (wid : Val) (as : List Attachment),
      (migrateIssueAttachments env yt_base wid as).1.countP isGetIssue = 0 ∧
      (migrateIssueAttachments env yt_base wid as).1.countP isSleep = 0 := by
    intro wid as
    constructor <;> refine countP_eq_zero_of_mem_imp fun e he => ?_
    · exact (kinds_not_getIssue_sleep (by
        have := mem_migrateIssueAttachments_events env yt_base wid as e he
        tauto)).1
    · exact (kinds_not_getIssue_sleep (by
        have := mem_migrateIssueAttachments_events env yt_base wid as e he
        tauto)).2
  unfold migrate_issue
  cases hi : env.issueData yt_id with
  | none =>
    simp [List.countP_cons, isGetIssue, isSleep]
  | some yt =>
    dsimp only
    cases hc : env.createJson (buildOps yt_base yt_id yt handler).1 with
    | none =>
      simp [List.countP_cons, isGetIssue, isSleep]
    | some res =>
      dsimp only
      cases hl : res.lookup "id" with
      | none =>
        simp [List.countP_cons, isGetIssue, isSleep]
      | some wid =>
        dsimp only
        rcases hcm2 : migrateComments env yt_base yt_id wid yt.comments with ⟨cev, cr⟩
        have hcev := hcm wid yt.comments
        rw [hcm2] at hcev
        dsimp only at hcev
        cases cr with
        | error err =>
          simp [List.countP_cons, List.countP_append, isGetIssue, isSleep, hcev.1, hcev.2]
        | ok u =>
          rcases hatt2 : migrateIssueAttachments env yt_base wid yt.attachments
            with ⟨aev, ar⟩
          have haev := hatt wid yt.attachments
          rw [hatt2] at haev
          dsimp only at haev
          simp [List.countP_cons, List.countP_append, isGetIssue, isSleep,
            hcev.1, hcev.2, haev.1, haev.2]

theorem retryMigrate_spec (penv : ProjEnv) (yt_base yt_id : String)
    (handler : CustomFieldHandler) :
    ∀ (n a : Nat),
    (∀ k, k < n →
      (migrate_issue (penv.attemptEnv (a + k)) yt_base yt_id handler).2 =
        .error .jsonDecodeError) →
    (migrate_issue (penv.attemptEnv (a + n)) yt_base yt_id handler).2 = .ok () →
    (retryMigrate penv yt_base yt_id handler a (n + 1)).2.2 = some (.ok ()) ∧
    (retryMigrate penv yt_base yt_id handler a (n + 1)).2.1 = a + n + 1 ∧
    (retryMigrate penv yt_base yt_id handler a (n + 1)).1.countP isGetIssue = n + 1 ∧
    (retryMigrate penv yt_base yt_id handler a (n + 1)).1.countP isSleep = n := by
  intro n
  induction n with
  | zero =>
    intro a hfail hok
    rw [Nat.add_zero] at hok
    rcases hm : migrate_issue (penv.attemptEnv a) yt_base yt_id handler with ⟨ev, r⟩
    rw [hm] at hok
    dsimp only at hok
    subst hok
    have he : retryMigrate penv yt_base yt_id handler a 1 = (ev, a + 1, some (.ok ())) := by
      unfold retryMigrate
      rw [hm]
    obtain ⟨hcount1, hcount2⟩ := migrate_issue_counts (penv.attemptEnv a) yt_base yt_id handler
    rw [hm] at hcount1 hcount2
    dsimp only at hcount1 hcount2
    rw [he]
    exact ⟨rfl, rfl, hcount1, hcount2⟩
  | succ m ih =>
    intro a hfail hok
    have hfail0 : (migrate_issue (penv.attemptEnv a) yt_base yt_id handler).2 =
        .error .jsonDecodeError := by
      have := hfail 0 (Nat.succ_pos m)
      simpa using this
    rcases hm : migrate_issue (penv.attemptEnv a) yt_base yt_id handler with ⟨ev, r⟩
    rw [hm] at hfail0
    dsimp only at hfail0
    subst hfail0
    rcases hr : retryMigrate penv yt_base yt_id handler (a + 1) (m + 1) with ⟨ev2, a2, r2⟩
    have he : retryMigrate penv yt_base yt_id handler a (m + 1 + 1) =
        (ev ++ Event.sleep 3 :: ev2, a2, r2) := by
      unfold retryMigrate
      rw [hm]
      dsimp only
      rw [hr]
    have hih := ih (a + 1)
      (fun k hk => by
        have := hfail (k + 1) (Nat.succ_lt_succ hk)
        have harr : a + (k + 1) = a + 1 + k := by omega
        rw [harr] at this
        exact this)
      (by
        have harr : a + 1 + m = a + (m + 1) := by omega
        rw [harr]
        exact hok)
    rw [hr] at hih
    dsimp only at hih
    obtain ⟨hih1, hih2, hih3, hih4⟩ := hih
    obtain ⟨hcount1, hcount2⟩ := migrate_issue_counts (penv.attemptEnv a) yt_base yt_id handler
    rw [hm] at hcount1 hcount2
    dsimp only at hcount1 hcount2
    rw [he]
    refine ⟨hih1, by dsimp only; omega, ?_, ?_⟩
    · dsimp only
      rw [List.countP_append, hcount1, List.countP_cons]
      simp only [isGetIssue, Bool.false_eq_true, if_false, hih3]
      omega
    · dsimp only
      rw [List.countP_append, hcount2, List.countP_cons]
      simp only [isSleep, if_true, hih4]
      omega

/-- C5: when an issue's migration raises a decode failure, `migrate_project`
sleeps the fixed 3-second delay and restarts that issue's migration from
the source fetch; after n decode failures followed by one success the issue
has been fetched n+1 times (in particular a failure-then-success run
fetches twice) with a sleep between consecutive attempts, the retrying is
unbounded in n, and only then does the per-issue loop move on to the next
issue. -/
theorem decode_retry_full_restart :
    ∀ (penv : ProjEnv) (yt_base yt_id : String) (handler : CustomFieldHandler)
      (n : Nat) (rest : List String),
    (∀ k, k < n →
      (migrate_issue (penv.attemptEnv k) yt_base yt_id handler).2 =
        .error .jsonDecodeError) →
    (migrate_issue (penv.attemptEnv n) yt_base yt_id handler).2 = .ok () →
    (retryMigrate penv yt_base yt_id handler 0 (n + 1)).2.2 = some (.ok ()) ∧
    (retryMigrate penv yt_base yt_id handler 0 (n + 1)).1.countP isGetIssue = n + 1 ∧
    (retryMigrate penv yt_base yt_id handler 0 (n + 1)).1.countP isSleep = n ∧
    (migrateIssuesLoop penv yt_base handler (n + 1) 0 (yt_id :: rest)).1 =
      (retryMigrate penv yt_base yt_id handler 0 (n + 1)).1 ++
        (migrateIssuesLoop penv yt_base handler (n + 1) (n + 1) rest).1 := by
  intro penv b i h n rest hfail hok
  have hz : ∀ k, k < n →
      (migrate_issue (penv.attemptEnv (0 + k)) b i h).2 = .error .jsonDecodeError := by
    intro k hk
    rw [Nat.zero_add]
    exact hfail k hk
  have hz2 : (migrate_issue (penv.attemptEnv (0 + n)) b i h).2 = .ok () := by
    rw [Nat.zero_add]
    exact hok
  obtain ⟨h1, h2, h3, h4⟩ := retryMigrate_spec penv b i h n 0 hz hz2
  refine ⟨h1, h3, h4, ?_⟩
  rcases hr : retryMigrate penv b i h 0 (n + 1) with ⟨ev, a2, r2⟩
  rw [hr] at h1 h2
  dsimp only at h1 h2
  subst h1
  subst h2
  have he : migrateIssuesLoop penv b h (n + 1) 0 (i :: rest) =
      (ev ++ (migrateIssuesLoop penv b h (n + 1) (0 + n + 1) rest).1,
       (migrateIssuesLoop penv b h (n + 1) (0 + n + 1) rest).2) := by
    simp only [migrateIssuesLoop]
    rw [hr]
  rw [he]
  dsimp only
  rw [Nat.zero_add]

/-- Witness for C5: a decode failure on the first attempt, success on the
second — two source fetches, one sleep, and the loop proceeds. -/
theorem decode_retry_witness :
    ((∀ k, k < 1 →
       (migrate_issue (retryProjEnv.attemptEnv k) "https://yt" "DEMO-1" demoHandler).2 =
         .error .jsonDecodeError) ∧
     (migrate_issue (retryProjEnv.attemptEnv 1) "https://yt" "DEMO-1" demoHandler).2 =
       .ok ()) ∧
    ((retryMigrate retryProjEnv "https://yt" "DEMO-1" demoHandler 0 2).2.2 =
       some (.ok ()) ∧
     (retryMigrate retryProjEnv "https://yt" "DEMO-1" demoHandler 0 2).1.countP
       isGetIssue = 2 ∧
     (retryMigrate retryProjEnv "https://yt" "DEMO-1" demoHandler 0 2).1.countP
       isSleep = 1 ∧
     (migrateIssuesLoop retryProjEnv "https://yt" demoHandler 2 0 ["DEMO-1"]).1 =
       (retryMigrate retryProjEnv "https://yt" "DEMO-1" demoHandler 0 2).1 ++
         (migrateIssuesLoop retryProjEnv "https://yt" demoHandler 2 2 []).1) :=
  ⟨⟨fun k hk => by
      have hk0 : k = 0 := by omega
      subst hk0
      rfl,
    rfl⟩,
   decode_retry_full_restart retryProjEnv "https://yt" "DEMO-1" demoHandler 1 []
     (fun k hk => by
       have hk0 : k = 0 := by omega
       subst hk0
       rfl)
     rfl⟩

/-! ## Claim C6 -/

/-- C6: in a successful issue migration every comment-post call and every
attachment relocation/attach call occurs strictly after the item-creation
call (the trace starts with the fetch, the creation and the deferred patch,
and all comment/attachment calls are in the tail), comments are posted in
the source-preserved order of the comment sequence, and issue-level
attachments are attached in the source-preserved order of the attachment
sequence. -/
theorem ordering_after_creation :
    ∀ (env : Env) (yt_base yt_id : String) (handler : CustomFieldHandler) (yt : YTData),
    env.issueData yt_id = some yt →
    (migrate_issue env yt_base yt_id handler).2 = .ok () →
    ∃ wid rest,
      (migrate_issue env yt_base yt_id handler).1 =
        Event.getIssue (issueFetchUrl yt_base yt_id) ::
        Event.postCreate (buildOps yt_base yt_id yt handler).1 ::
        Event.patchOps wid (buildOps yt_base yt_id yt handler).2 :: rest ∧
      rest.filter isPostComment =
        yt.comments.map
          (fun c => Event.postComment wid (commentFinalText env yt_base yt_id c)) ∧
      rest.filter isPatchAttach =
        (yt.attachments.filter fun a => !pyFalsy a.url).map
          (fun a => Event.patchAttach wid ⟨a.name, attachUploadedUrl env yt_base a⟩) := by
  intro env b i h yt h1 h2
  unfold migrate_issue at h2 ⊢
  rw [h1] at h2 ⊢
  dsimp only at h2 ⊢
  cases hc : env.createJson (buildOps b i yt h).1 with
  | none =>
    rw [hc] at h2
    simp at h2
  | some res =>
    rw [hc] at h2
    dsimp only at h2 ⊢
    cases hl : res.lookup "id" with
    | none =>
      rw [hl] at h2
      simp at h2
    | some wid =>
      rw [hl] at h2
      dsimp only at h2 ⊢
      rcases hcm : migrateComments env b i wid yt.comments with ⟨cev, cr⟩
      rw [hcm] at h2
      cases cr with
      | error err =>
        dsimp only at h2
        simp at h2
      | ok u =>
        cases u
        dsimp only at h2 ⊢
        rcases hat : migrateIssueAttachments env b wid yt.attachments with ⟨aev, ar⟩
        rw [hat] at h2
        dsimp only at h2 ⊢
        obtain ⟨hc1, hc2⟩ := migrateComments_ok_filter env b i wid yt.comments
          (by rw [hcm])
        obtain ⟨ha1, ha2⟩ := migrateIssueAttachments_ok_filter env b wid yt.attachments
          (by rw [hat]; exact h2)
        rw [hcm] at hc1 hc2
        rw [hat] at ha1 ha2
        dsimp only at hc1 hc2 ha1 ha2
        refine ⟨wid, cev ++ aev, by simp, ?_, ?_⟩
        · rw [List.filter_append, hc1, ha2]
          simp
        · rw [List.filter_append, hc2, ha1]
          simp

/-- Witness for C6 at an issue with two comments and two attachments. -/
theorem ordering_after_creation_witness :
    (orderingEnv.issueData "ORD-1" = some orderingIssue ∧
     (migrate_issue orderingEnv "https://yt" "ORD-1" (fun _ => [])).2 = .ok ()) ∧
    (∃ wid rest,
      (migrate_issue orderingEnv "https://yt" "ORD-1" (fun _ => [])).1 =
        Event.getIssue (issueFetchUrl "https://yt" "ORD-1") ::
        Event.postCreate (buildOps "https://yt" "ORD-1" orderingIssue (fun _ => [])).1 ::
        Event.patchOps wid (buildOps "https://yt" "ORD-1" orderingIssue (fun _ => [])).2 ::
          rest ∧
      rest.filter isPostComment =
        orderingIssue.comments.map
          (fun c => Event.postComment wid (commentFinalText orderingEnv "https://yt" "ORD-1" c)) ∧
      rest.filter isPatchAttach =
        (orderingIssue.attachments.filter fun a => !pyFalsy a.url).map
          (fun a => Event.patchAttach wid
            ⟨a.name, attachUploadedUrl orderingEnv "https://yt" a⟩)) :=
  ⟨⟨rfl, rfl⟩,
   ordering_after_creation orderingEnv "https://yt" "ORD-1" (fun _ => []) orderingIssue
     rfl rfl⟩

/-- Witness for C7 at a two-directive policy with one directive per phase. -/
theorem phase_partition_witness :
    (buildOps "https://yt" "W-7" demoIssue mixedHandler).1.drop 2 =
      [_set_field "PreField" (.int 1)] ∧
    (buildOps "https://yt" "W-7" demoIssue mixedHandler).2 =
      [_set_field "PostField" (.int 2)] := by
  have h := phase_partition "https://yt" "W-7" demoIssue mixedHandler
  exact ⟨h.1.trans (by rfl), h.2.1.trans (by rfl)⟩

end SecScan
